import Mathlib

/-!
Verification of the ColaStream signaling bridge (bridge/signaling-bridge.js).

The bridge is a single class, `SignalingBridge`, holding five fields of
process state (`roomId`, `mediaServerUrl`, `sdk`, `connectedPeers`,
`iceServers`).  Every method is straight-line message dispatch; the only
external effects are the HTTP fetch to MediaMTX, the credential fetch at
startup, JSON parsing of inbound payloads, and the SDK send/disconnect
calls.  We embed the class as a structure and each method as a pure
function; each external effect becomes an explicit oracle argument
(`HttpResult`, `FetchResult`, `Option InMessage` for the parse outcome,
`Option String` for a disconnect exception), and the observable outputs
(HTTP calls issued, messages sent to peers) are returned as lists.
-/

set_option autoImplicit false

/-- An entry of the cached ICE-server list.  The code builds these either by
projecting `urls`/`username`/`credential` from the discovery response
(signaling-bridge.js lines 111-115) or as the hardcoded fallback object,
which carries only a `urls` field (line 119); absent fields are `none`. -/
structure IceServer where
  urls : String
  username : Option String
  credential : Option String
deriving DecidableEq, Repr

/-- An entry of the `servers` array returned by the credential discovery
service.  Only the three fields the code reads are modelled. -/
structure TurnServerEntry where
  urls : String
  username : Option String
  credential : Option String
deriving DecidableEq, Repr

/-- The projection applied to each discovery entry at lines 111-115:
`s => ({ urls: s.urls, username: s.username, credential: s.credential })`. -/
def projectServer (s : TurnServerEntry) : IceServer :=
  { urls := s.urls, username := s.username, credential := s.credential }

/-- The process state held by the `SignalingBridge` class (constructor,
lines 29-35).  `sdkActive` models `this.sdk !== null`; `connectedPeers`
models the JS `Set` as a duplicate-free list in insertion order;
`iceServers` is `null` (`none`) until `fetchTurnServers` runs. -/
structure SignalingBridge where
  roomId : String
  mediaServerUrl : String
  sdkActive : Bool
  connectedPeers : List String
  iceServers : Option (List IceServer)
deriving DecidableEq, Repr

/-- A parsed inbound signaling message; each field may be absent
(`undefined` in JS), hence `Option`. -/
structure InMessage where
  type : Option String
  streamPath : Option String
  sdp : Option String
  requestId : Option String
deriving DecidableEq, Repr

/-- The messages the bridge sends to a peer: the object literals at
lines 165-170 (`answer`), line 137 (`pong`) and lines 176-180 (`error`). -/
inductive OutMessage where
  | answer (type : String) (requestId : Option String) (sdp : String)
      (iceServers : Option (List IceServer))
  | pong
  | error (requestId : Option String) (errorText : String)
deriving DecidableEq, Repr

/-- One HTTP request issued to the media server (the `fetch` call at
lines 152-156). -/
structure HttpCall where
  url : String
  method : String
  contentType : String
  body : Option String
deriving DecidableEq, Repr

/-- Outcome of the upstream `fetch`: either a resolved response with a
status and a body text, or a rejection (network error / thrown
exception) whose `e.message` is `message`. -/
inductive HttpResult where
  | response (status : Nat) (body : String)
  | networkError (message : String)
deriving DecidableEq, Repr

/-- `response.ok` of the upstream fetch (node-fetch: status in [200, 300)),
and falsity for a rejected fetch. -/
def httpOk : HttpResult → Prop
  | HttpResult.response status _ => 200 ≤ status ∧ status < 300
  | HttpResult.networkError _ => False

instance (r : HttpResult) : Decidable (httpOk r) :=
  match r with
  | HttpResult.response status _ => inferInstanceAs (Decidable (200 ≤ status ∧ status < 300))
  | HttpResult.networkError _ => Decidable.isFalse (fun h => h)

/-- Outcome of the credential-discovery fetch in `fetchTurnServers`:
either a parsed `{servers: [...]}` payload, or any exception (network
error, malformed JSON, missing field) — all of which land in the
`catch` at lines 117-120. -/
inductive FetchResult where
  | ok (servers : List TurnServerEntry)
  | failure (message : String)
deriving DecidableEq, Repr

/-- Outcome of `sdk.connect()` / `sdk.announce()` during `start`. -/
inductive ConnectResult where
  | ok
  | failed (message : String)
deriving DecidableEq, Repr

/-- JS `a || d` for a possibly-undefined string `a`: the default is used
when `a` is `undefined` or the (falsy) empty string. -/
def jsOr : Option String → String → String
  | some s, d => if s = "" then d else s
  | none, d => d

/-- JS template-literal interpolation of a possibly-undefined string. -/
def jsInterp : Option String → String
  | some s => s
  | none => "undefined"

/-- The hardcoded fallback installed on discovery failure (line 119):
`[{ urls: 'stun:stun.l.google.com:19302' }]` — a single STUN entry with
no `username` or `credential` field. -/
def fallbackIceServers : List IceServer :=
  [{ urls := "stun:stun.l.google.com:19302", username := none, credential := none }]

/-- `new SignalingBridge(options)` (lines 29-35).  `randomSuffix` stands
for the random string generated when no room is supplied. -/
def SignalingBridge.mkBridge (room mediaServerUrl : Option String)
    (randomSuffix : String) : SignalingBridge :=
  { roomId := jsOr room ("colastream-" ++ randomSuffix)
    mediaServerUrl := jsOr mediaServerUrl "http://localhost:8889"
    sdkActive := false
    connectedPeers := []
    iceServers := none }

/-- `fetchTurnServers` (lines 106-121): on success map the discovery
entries through the three-field projection; on any exception install the
single-entry STUN fallback. -/
def SignalingBridge.fetchTurnServers (self : SignalingBridge)
    (result : FetchResult) : SignalingBridge :=
  match result with
  | FetchResult.ok servers =>
      { self with iceServers := some (servers.map projectServer) }
  | FetchResult.failure _ =>
      { self with iceServers := some fallbackIceServers }

/-- `sendToClient` (lines 184-192): if the SDK is present, attempt
`sdk.sendData(JSON.stringify(data), { target: clientUUID })`; a throw
from `sendData` is swallowed.  Returns the list of send calls made. -/
def SignalingBridge.sendToClient (self : SignalingBridge)
    (clientUUID : String) (data : OutMessage) : List (String × OutMessage) :=
  if self.sdkActive then [(clientUUID, data)] else []

/-- `handleSignaling` (lines 143-182).  Returns the (unchanged) state,
the list of HTTP calls issued, and the list of messages sent.  The
`try` block throws `MediaMTX <status>: <text.substring(0,100)>` on a
non-2xx response; the `catch` sends an `error` message carrying
`e.message`. -/
def SignalingBridge.handleSignaling (self : SignalingBridge)
    (message : InMessage) (clientUUID : String) (httpResult : HttpResult) :
    SignalingBridge × List HttpCall × List (String × OutMessage) :=
  let endpoint := if message.type = some "whip" then "whip" else "whep"
  let url := self.mediaServerUrl ++ "/" ++ jsOr message.streamPath "live" ++ "/" ++ endpoint
  let call : HttpCall :=
    { url := url, method := "POST", contentType := "application/sdp", body := message.sdp }
  match httpResult with
  | HttpResult.networkError m =>
      (self, [call], self.sendToClient clientUUID (OutMessage.error message.requestId m))
  | HttpResult.response status body =>
      if 200 ≤ status ∧ status < 300 then
        (self, [call], self.sendToClient clientUUID
          (OutMessage.answer (jsInterp message.type ++ "-answer") message.requestId
            body self.iceServers))
      else
        (self, [call], self.sendToClient clientUUID
          (OutMessage.error message.requestId
            ("MediaMTX " ++ toString status ++ ": " ++ body.take 100)))

/-- `handleMessage` (lines 123-141).  `parsed` is the outcome of the
`typeof data === 'string' ? JSON.parse(data) : data` step: `none` when
`JSON.parse` throws, in which case the handler logs and returns. -/
def SignalingBridge.handleMessage (self : SignalingBridge)
    (parsed : Option InMessage) (clientUUID : String) (httpResult : HttpResult) :
    SignalingBridge × List HttpCall × List (String × OutMessage) :=
  match parsed with
  | none => (self, [], [])
  | some message =>
      if message.type = some "whip" ∨ message.type = some "whep" then
        self.handleSignaling message clientUUID httpResult
      else if message.type = some "ping" then
        (self, [], self.sendToClient clientUUID OutMessage.pong)
      else
        (self, [], [])

/-- JS `Set.add`: append if not already present. -/
def setAdd (l : List String) (u : String) : List String :=
  if u ∈ l then l else l ++ [u]

/-- The `peerConnected` observer (lines 62-69): `if (uuid)` guards on
truthiness, so `undefined` and the empty string are ignored. -/
def SignalingBridge.peerConnected (self : SignalingBridge)
    (uuid : Option String) : SignalingBridge :=
  match uuid with
  | some u =>
      if u = "" then self
      else { self with connectedPeers := setAdd self.connectedPeers u }
  | none => self

/-- The `peerDisconnected` observer (lines 71-78), with the same
truthiness guard. -/
def SignalingBridge.peerDisconnected (self : SignalingBridge)
    (uuid : Option String) : SignalingBridge :=
  match uuid with
  | some u =>
      if u = "" then self
      else { self with connectedPeers := self.connectedPeers.erase u }
  | none => self

/-- `stop` (lines 194-200): `this.sdk.disconnect()` is called with no
try/catch, so an exception from `disconnect` (oracle `disconnectError`)
propagates out of `stop` before `this.sdk = null` runs. -/
def SignalingBridge.stop (self : SignalingBridge)
    (disconnectError : Option String) : Except String SignalingBridge :=
  if self.sdkActive then
    match disconnectError with
    | some e => Except.error e
    | none => Except.ok { self with sdkActive := false }
  else
    Except.ok self

/-- `start` (lines 37-104): fetch TURN servers (never throws), create the
SDK, then connect/announce inside a try whose catch rethrows.  On
success it returns `this.roomId`. -/
def SignalingBridge.start (self : SignalingBridge)
    (fetchResult : FetchResult) (connectResult : ConnectResult) :
    Except String (SignalingBridge × String) :=
  let st1 := self.fetchTurnServers fetchResult
  let st2 := { st1 with sdkActive := true }
  match connectResult with
  | ConnectResult.ok => Except.ok (st2, st2.roomId)
  | ConnectResult.failed m => Except.error m

/-- One event dispatched to the bridge after startup: an inbound data
message (with its parse outcome and upstream HTTP outcome), a peer
lifecycle notification, or a direct send. -/
inductive Op where
  | dataReceived (parsed : Option InMessage) (uuid : String) (httpResult : HttpResult)
  | peerConnectedEv (uuid : Option String)
  | peerDisconnectedEv (uuid : Option String)
  | sendEv (uuid : String) (data : OutMessage)
deriving Repr

/-- State transition of one event.  `sendToClient` reads but never
writes the state, so `sendEv` leaves it unchanged. -/
def applyOp (st : SignalingBridge) : Op → SignalingBridge
  | Op.dataReceived parsed uuid httpResult => (st.handleMessage parsed uuid httpResult).1
  | Op.peerConnectedEv uuid => st.peerConnected uuid
  | Op.peerDisconnectedEv uuid => st.peerDisconnected uuid
  | Op.sendEv _ _ => st

/-- `n` successive `peerConnected` notifications for the same peer. -/
def connectTimes (st : SignalingBridge) (u : String) : Nat → SignalingBridge
  | 0 => st
  | n + 1 => (connectTimes st u n).peerConnected (some u)

/-- A ready bridge state used for concrete witnesses. -/
def stReady : SignalingBridge :=
  { roomId := "colastream-abc123"
    mediaServerUrl := "http://localhost:8889"
    sdkActive := true
    connectedPeers := []
    iceServers := some [{ urls := "turn:turn.vdo.ninja:3478"
                          username := some "steve"
                          credential := some "setupYourOwnPlease" }] }

/-- A freshly constructed bridge state used for concrete witnesses. -/
def stFresh : SignalingBridge :=
  SignalingBridge.mkBridge none none "abc123"

/-- A concrete WHIP request used for concrete witnesses. -/
def sampleWhip : InMessage :=
  { type := some "whip", streamPath := some "live"
    sdp := some "v=0 offer", requestId := some "r1" }

/-! ## Helper lemmas -/

/-- `handleSignaling` never modifies the bridge state. -/
theorem handleSignaling_state (st : SignalingBridge) (m : InMessage)
    (u : String) (h : HttpResult) : (st.handleSignaling m u h).1 = st := by
  cases h with
  | response status body =>
      simp only [SignalingBridge.handleSignaling]
      split <;> rfl
  | networkError m => rfl

/-- `handleMessage` never modifies the bridge state. -/
theorem handleMessage_state (st : SignalingBridge) (p : Option InMessage)
    (u : String) (h : HttpResult) : (st.handleMessage p u h).1 = st := by
  cases p with
  | none => rfl
  | some m =>
      simp only [SignalingBridge.handleMessage]
      split
      · exact handleSignaling_state st m u h
      · split <;> rfl

/-- Every post-startup event preserves `roomId`, `mediaServerUrl`,
`sdkActive` and `iceServers`: only `connectedPeers` is ever written. -/
theorem applyOp_preserves (st : SignalingBridge) (op : Op) :
    (applyOp st op).roomId = st.roomId
    ∧ (applyOp st op).mediaServerUrl = st.mediaServerUrl
    ∧ (applyOp st op).sdkActive = st.sdkActive
    ∧ (applyOp st op).iceServers = st.iceServers := by
  cases op with
  | dataReceived p u h => simp [applyOp, handleMessage_state]
  | peerConnectedEv u =>
      cases u with
      | none => simp [applyOp, SignalingBridge.peerConnected]
      | some v =>
          simp only [applyOp, SignalingBridge.peerConnected]
          split <;> simp
  | peerDisconnectedEv u =>
      cases u with
      | none => simp [applyOp, SignalingBridge.peerDisconnected]
      | some v =>
          simp only [applyOp, SignalingBridge.peerDisconnected]
          split <;> simp
  | sendEv u d => simp [applyOp]

/-- Any sequence of post-startup events preserves `roomId`,
`mediaServerUrl`, `sdkActive` and `iceServers`. -/
theorem foldl_applyOp_preserves (ops : List Op) (st : SignalingBridge) :
    (ops.foldl applyOp st).roomId = st.roomId
    ∧ (ops.foldl applyOp st).mediaServerUrl = st.mediaServerUrl
    ∧ (ops.foldl applyOp st).sdkActive = st.sdkActive
    ∧ (ops.foldl applyOp st).iceServers = st.iceServers := by
  induction ops generalizing st with
  | nil => simp
  | cons op ops ih =>
      simp only [List.foldl_cons]
      obtain ⟨h1, h2, h3, h4⟩ := ih (applyOp st op)
      obtain ⟨g1, g2, g3, g4⟩ := applyOp_preserves st op
      exact ⟨h1.trans g1, h2.trans g2, h3.trans g3, h4.trans g4⟩

/-- On a 2xx upstream response to a `whip`/`whep` message, `handleMessage`
issues exactly the one POST and sends exactly the one answer message. -/
theorem handleMessage_success (st : SignalingBridge) (message : InMessage)
    (clientUUID t : String) (status : Nat) (body : String)
    (hty : message.type = some t) (ht : t = "whip" ∨ t = "whep")
    (hsdk : st.sdkActive = true) (hok : 200 ≤ status ∧ status < 300) :
    st.handleMessage (some message) clientUUID (HttpResult.response status body)
      = (st,
         [{ url := st.mediaServerUrl ++ "/" ++ jsOr message.streamPath "live" ++ "/" ++ t,
            method := "POST", contentType := "application/sdp", body := message.sdp }],
         [(clientUUID, OutMessage.answer (t ++ "-answer") message.requestId body
             st.iceServers)]) := by
  obtain h | h := ht
  all_goals subst h
  all_goals
    simp [SignalingBridge.handleMessage, SignalingBridge.handleSignaling,
      SignalingBridge.sendToClient, hty, jsInterp, hsdk, hok]

/-! ## Claim theorems -/

/-- C1: for every inbound `whip`/`whep` message from a peer whose upstream
POST returns a 2xx status, exactly one message is sent back to that peer,
of type `<inbound type>-answer`, with the inbound `requestId`, with `sdp`
equal to the upstream response body, and with `iceServers` equal to the
cached credential list at the time of the call. -/
theorem C1_success_sends_one_answer (st : SignalingBridge) (message : InMessage)
    (clientUUID t : String) (status : Nat) (body : String)
    (hty : message.type = some t) (ht : t = "whip" ∨ t = "whep")
    (hsdk : st.sdkActive = true) (hok : 200 ≤ status ∧ status < 300) :
    (st.handleMessage (some message) clientUUID (HttpResult.response status body)).2.2
      = [(clientUUID, OutMessage.answer (t ++ "-answer") message.requestId body
          st.iceServers)] := by
  rw [handleMessage_success st message clientUUID t status body hty ht hsdk hok]

/-- Witness for C1 at a concrete ready state, WHIP request and 201 response. -/
theorem C1_witness :
    (stReady.handleMessage (some sampleWhip) "peer-1" (HttpResult.response 201 "v=0 answer")).2.2
      = [("peer-1", OutMessage.answer ("whip" ++ "-answer") sampleWhip.requestId "v=0 answer"
          stReady.iceServers)] :=
  C1_success_sends_one_answer stReady sampleWhip "peer-1" "whip" 201 "v=0 answer"
    rfl (Or.inl rfl) rfl (by decide)

/-- C2: for every inbound `whip`/`whep` message whose upstream call fails
(non-2xx status or a rejected fetch), the single message sent back to the
peer is of type `error`, carries the original `requestId` and a
human-readable error string, no answer message is sent, and the handler
returns with the state unchanged. -/
theorem C2_upstream_failure_sends_error (st : SignalingBridge) (message : InMessage)
    (clientUUID : String) (httpResult : HttpResult)
    (hty : message.type = some "whip" ∨ message.type = some "whep")
    (hsdk : st.sdkActive = true) (hfail : ¬ httpOk httpResult) :
    ∃ e, st.handleMessage (some message) clientUUID httpResult
      = (st,
         [{ url := st.mediaServerUrl ++ "/" ++ jsOr message.streamPath "live" ++ "/"
              ++ (if message.type = some "whip" then "whip" else "whep"),
            method := "POST", contentType := "application/sdp", body := message.sdp }],
         [(clientUUID, OutMessage.error message.requestId e)]) := by
  cases httpResult with
  | networkError m =>
      refine ⟨m, ?_⟩
      simp [SignalingBridge.handleMessage, if_pos hty, SignalingBridge.handleSignaling,
        SignalingBridge.sendToClient, hsdk]
  | response status body =>
      refine ⟨"MediaMTX " ++ toString status ++ ": " ++ body.take 100, ?_⟩
      have hnot : ¬ (200 ≤ status ∧ status < 300) := hfail
      simp [SignalingBridge.handleMessage, if_pos hty, SignalingBridge.handleSignaling,
        SignalingBridge.sendToClient, hsdk, if_neg hnot]

/-- Witness for C2 at a concrete ready state, WHIP request and 500 response. -/
theorem C2_witness :
    ∃ e, stReady.handleMessage (some sampleWhip) "peer-1" (HttpResult.response 500 "oops")
      = (stReady,
         [{ url := stReady.mediaServerUrl ++ "/" ++ jsOr sampleWhip.streamPath "live" ++ "/"
              ++ (if sampleWhip.type = some "whip" then "whip" else "whep"),
            method := "POST", contentType := "application/sdp", body := sampleWhip.sdp }],
         [("peer-1", OutMessage.error sampleWhip.requestId e)]) :=
  C2_upstream_failure_sends_error stReady sampleWhip "peer-1" (HttpResult.response 500 "oops")
    (Or.inl rfl) rfl (by decide)

/-- C4: an inbound data message whose string payload fails to parse as
JSON produces no HTTP call, no outbound message, and leaves the state —
in particular the peer registry — unchanged. -/
theorem C4_parse_failure_no_output (st : SignalingBridge) (clientUUID : String)
    (httpResult : HttpResult) :
    st.handleMessage none clientUUID httpResult = (st, [], []) := rfl

/-- C5: an inbound `ping` message produces exactly one `pong` message,
addressed to the originating peer and no other, makes no HTTP call, and
leaves the state (peer registry, credential list) unchanged. -/
theorem C5_ping_sends_pong (st : SignalingBridge) (message : InMessage)
    (clientUUID : String) (httpResult : HttpResult)
    (hty : message.type = some "ping") (hsdk : st.sdkActive = true) :
    st.handleMessage (some message) clientUUID httpResult
      = (st, [], [(clientUUID, OutMessage.pong)]) := by
  simp [SignalingBridge.handleMessage, hty, SignalingBridge.sendToClient, hsdk]

/-- Witness for C5 at a concrete ready state. -/
theorem C5_witness :
    stReady.handleMessage
        (some { type := some "ping", streamPath := none, sdp := none, requestId := none })
        "peer-1" (HttpResult.response 200 "")
      = (stReady, [], [("peer-1", OutMessage.pong)]) :=
  C5_ping_sends_pong stReady
    { type := some "ping", streamPath := none, sdp := none, requestId := none }
    "peer-1" (HttpResult.response 200 "") rfl rfl

/-- C10: a `whip`/`whep` request whose `streamPath` is present but equal
to the empty string behaves exactly as if `streamPath` were absent: the
whole outcome of `handleSignaling` coincides, and in particular the
upstream URL uses the default path segment `live`. -/
theorem C10_empty_streamPath_defaults_to_live (st : SignalingBridge)
    (message : InMessage) (clientUUID : String) (httpResult : HttpResult) :
    st.handleSignaling { message with streamPath := some "" } clientUUID httpResult
      = st.handleSignaling { message with streamPath := none } clientUUID httpResult
    ∧ (st.handleSignaling { message with streamPath := some "" } clientUUID httpResult).2.1
      = [{ url := st.mediaServerUrl ++ "/" ++ "live" ++ "/"
             ++ (if message.type = some "whip" then "whip" else "whep"),
           method := "POST", contentType := "application/sdp", body := message.sdp }] := by
  constructor
  · simp [SignalingBridge.handleSignaling, jsOr]
  · cases httpResult with
    | networkError m => simp [SignalingBridge.handleSignaling, jsOr]
    | response status body =>
        simp only [SignalingBridge.handleSignaling, jsOr]
        split <;> simp

/-- C6: after startup, every operation — message handling, peer
connect/disconnect, sending — preserves the room identity and the
credential list, and the credential list installed by
`fetchTurnServers` is exactly either the fetched (projected) set or the
fallback set, never anything partial. -/
theorem C6_state_invariants (st : SignalingBridge) (r : FetchResult) (ops : List Op) :
    (ops.foldl applyOp (st.fetchTurnServers r)).roomId = (st.fetchTurnServers r).roomId
    ∧ (ops.foldl applyOp (st.fetchTurnServers r)).iceServers
        = (st.fetchTurnServers r).iceServers
    ∧ ((∃ servers, r = FetchResult.ok servers
          ∧ (st.fetchTurnServers r).iceServers = some (servers.map projectServer))
        ∨ (st.fetchTurnServers r).iceServers = some fallbackIceServers) := by
  refine ⟨(foldl_applyOp_preserves ops _).1, (foldl_applyOp_preserves ops _).2.2.2, ?_⟩
  cases r with
  | ok servers => exact Or.inl ⟨servers, rfl, rfl⟩
  | failure m => exact Or.inr rfl

/-- Adding a peer to a registry that holds it at most once leaves it held
exactly once. -/
theorem setAdd_count (l : List String) (u : String) (h : l.count u ≤ 1) :
    (setAdd l u).count u = 1 := by
  unfold setAdd
  split
  · rename_i hm
    have hpos : 0 < l.count u := List.count_pos_iff.mpr hm
    omega
  · rename_i hm
    rw [List.count_append, List.count_eq_zero.mpr hm]
    simp

/-- For a nonempty identifier, the connect observer appends via `setAdd`. -/
theorem peerConnected_peers (st : SignalingBridge) (u : String) (hu : u ≠ "") :
    (st.peerConnected (some u)).connectedPeers = setAdd st.connectedPeers u := by
  simp [SignalingBridge.peerConnected, hu]

/-- C9 counterexample: the claim quantifies over every peer identifier,
but a connect notification carrying the (falsy) empty-string identifier
is ignored by the `if (uuid)` guard, so it leaves zero registry entries
for that identifier rather than exactly one. -/
theorem C9_counterexample :
    ¬ ((stFresh.peerConnected (some "")).connectedPeers.count "" = 1) := by decide

/-- C9 (amended): for every nonempty peer identifier `u`, starting from a
registry holding `u` at most once, a connect followed by a disconnect
leaves no entry for `u`; any nonempty run of connects without a
disconnect leaves exactly one entry for `u`; and notifications with a
missing or empty identifier are ignored. -/
theorem C9_connect_disconnect_registry (st : SignalingBridge) (u : String) (n : Nat)
    (hu : u ≠ "") (hcount : st.connectedPeers.count u ≤ 1) :
    ((st.peerConnected (some u)).peerDisconnected (some u)).connectedPeers.count u = 0
    ∧ (connectTimes st u (n + 1)).connectedPeers.count u = 1
    ∧ st.peerConnected none = st
    ∧ st.peerConnected (some "") = st := by
  refine ⟨?_, ?_, rfl, by simp [SignalingBridge.peerConnected]⟩
  · have h1 : ((st.peerConnected (some u)).peerDisconnected (some u)).connectedPeers
        = ((st.peerConnected (some u)).connectedPeers).erase u := by
      simp [SignalingBridge.peerDisconnected, hu]
    rw [h1, List.count_erase_self, peerConnected_peers st u hu, setAdd_count _ _ hcount]
  · induction n with
    | zero =>
        show ((connectTimes st u 0).peerConnected (some u)).connectedPeers.count u = 1
        rw [peerConnected_peers _ u hu]
        exact setAdd_count _ _ hcount
    | succ m ih =>
        show ((connectTimes st u (m + 1)).peerConnected (some u)).connectedPeers.count u = 1
        rw [peerConnected_peers _ u hu]
        exact setAdd_count _ _ (le_of_eq ih)

/-- Witness for C9 at a fresh state and the identifier `peer-1`. -/
theorem C9_witness :
    ((stFresh.peerConnected (some "peer-1")).peerDisconnected (some "peer-1")).connectedPeers.count "peer-1" = 0
    ∧ (connectTimes stFresh "peer-1" (2 + 1)).connectedPeers.count "peer-1" = 1
    ∧ stFresh.peerConnected none = stFresh
    ∧ stFresh.peerConnected (some "") = stFresh :=
  C9_connect_disconnect_registry stFresh "peer-1" 2 (by decide) (by decide)

/-- C8 counterexample: `stop` calls `sdk.disconnect()` with no try/catch
(lines 194-200), so when `disconnect` throws on an active session the
exception propagates out of `stop` instead of being swallowed. -/
theorem C8_counterexample :
    stReady.stop (some "ws teardown failed") = Except.error "ws teardown failed" := rfl

/-- C8 (amended): on a termination signal, shutdown closes the signaling
session when `disconnect` raises no error, clearing the SDK and
returning normally; but an error raised by `disconnect` on an active
session is not swallowed — `stop` propagates it as an exception. -/
theorem C8_stop_behaviour (st : SignalingBridge) (e : String)
    (hsdk : st.sdkActive = true) :
    st.stop none = Except.ok { st with sdkActive := false }
    ∧ st.stop (some e) = Except.error e := by
  simp [SignalingBridge.stop, hsdk]

/-- Witness for C8 at a concrete active state. -/
theorem C8_witness :
    stReady.stop none = Except.ok { stReady with sdkActive := false }
    ∧ stReady.stop (some "boom") = Except.error "boom" :=
  C8_stop_behaviour stReady "boom" rfl

/-- C3 counterexample: the fallback installed on discovery failure is the
single entry `[{ urls: 'stun:stun.l.google.com:19302' }]` (line 119) — a
STUN entry with no `username` and no `credential` field — so its entry is
not a relay-server `{url, username, credential}` triple as claimed. -/
theorem C3_counterexample :
    ¬ (∀ s ∈ ((stFresh.fetchTurnServers (FetchResult.failure "fetch failed")).iceServers.getD []),
        s.username.isSome = true ∧ s.credential.isSome = true) := by decide

/-- C3 (amended): if the startup credential fetch fails for any reason,
the cached list becomes the single-entry fallback
`[{ urls: 'stun:stun.l.google.com:19302' }]` — a public STUN entry with
no username or credential — startup continues rather than aborting, and
that fallback list is attached to every answer sent after any further
sequence of events. -/
theorem C3_fallback_on_fetch_failure (st : SignalingBridge) (e : String) (ops : List Op)
    (message : InMessage) (clientUUID t : String) (status : Nat) (body : String)
    (hty : message.type = some t) (ht : t = "whip" ∨ t = "whep")
    (hok : 200 ≤ status ∧ status < 300) :
    ∃ stStarted, st.start (FetchResult.failure e) ConnectResult.ok
        = Except.ok (stStarted, stStarted.roomId)
      ∧ stStarted.iceServers = some fallbackIceServers
      ∧ (ops.foldl applyOp stStarted).iceServers = some fallbackIceServers
      ∧ ((ops.foldl applyOp stStarted).handleMessage (some message) clientUUID
            (HttpResult.response status body)).2.2
          = [(clientUUID, OutMessage.answer (t ++ "-answer") message.requestId body
              (some fallbackIceServers))] := by
  refine ⟨{ st.fetchTurnServers (FetchResult.failure e) with sdkActive := true },
    rfl, rfl, ?_, ?_⟩
  · exact (foldl_applyOp_preserves ops _).2.2.2
  · rw [handleMessage_success _ message clientUUID t status body hty ht
      ((foldl_applyOp_preserves ops _).2.2.1) hok,
      (foldl_applyOp_preserves ops _).2.2.2]
    rfl

/-- Witness for C3 at a fresh state, a failed fetch, one interleaved peer
connect, and a concrete 201-answered WHIP request. -/
theorem C3_witness :
    ∃ stStarted, stFresh.start (FetchResult.failure "fetch failed") ConnectResult.ok
        = Except.ok (stStarted, stStarted.roomId)
      ∧ stStarted.iceServers = some fallbackIceServers
      ∧ ([Op.peerConnectedEv (some "peer-1")].foldl applyOp stStarted).iceServers
          = some fallbackIceServers
      ∧ (([Op.peerConnectedEv (some "peer-1")].foldl applyOp stStarted).handleMessage
            (some sampleWhip) "peer-1" (HttpResult.response 201 "v=0 answer")).2.2
          = [("peer-1", OutMessage.answer ("whip" ++ "-answer") sampleWhip.requestId
              "v=0 answer" (some fallbackIceServers))] :=
  C3_fallback_on_fetch_failure stFresh "fetch failed" [Op.peerConnectedEv (some "peer-1")]
    sampleWhip "peer-1" "whip" 201 "v=0 answer" rfl (Or.inl rfl) (by decide)

/-- `handleSignaling` issues exactly one POST, whose URL, content-type
and body do not depend on the upstream outcome. -/
theorem handleSignaling_call (st : SignalingBridge) (m : InMessage)
    (u : String) (h : HttpResult) :
    (st.handleSignaling m u h).2.1
      = [{ url := st.mediaServerUrl ++ "/" ++ jsOr m.streamPath "live" ++ "/"
             ++ (if m.type = some "whip" then "whip" else "whep"),
           method := "POST", contentType := "application/sdp", body := m.sdp }] := by
  cases h with
  | networkError m2 => rfl
  | response status body =>
      simp only [SignalingBridge.handleSignaling]
      split <;> rfl

/-- C7 counterexample: for a WHIP request whose `streamPath` is present
but empty, the claimed URL shape — base, then `/`, then the request
streamPath, then `/whip` — does not hold: the code substitutes `live`
for the (falsy) empty string, so the issued call differs from the
claimed one. -/
theorem C7_counterexample :
    ¬ ((stReady.handleSignaling
          { type := some "whip", streamPath := some "", sdp := some "v=0 offer",
            requestId := some "r2" }
          "peer-2" (HttpResult.response 201 "a")).2.1
        = [{ url := stReady.mediaServerUrl ++ "/" ++ "" ++ "/" ++ "whip",
             method := "POST", contentType := "application/sdp",
             body := some "v=0 offer" }]) := by decide

/-- C7 (amended): for every `whip`/`whep` request, the upstream target URL
is the configured media-server base address, then `/`, then the request
streamPath — or the literal `live` when streamPath is absent or the
empty string — then `/`, then the literal `whip` or `whep` equal to the
request type; the POST uses content-type `application/sdp` and its body
is the request sdp field. -/
theorem C7_request_url_and_body (st : SignalingBridge) (message : InMessage)
    (clientUUID t : String) (httpResult : HttpResult)
    (hty : message.type = some t) (ht : t = "whip" ∨ t = "whep") :
    (st.handleMessage (some message) clientUUID httpResult).2.1
      = [{ url := st.mediaServerUrl ++ "/" ++ jsOr message.streamPath "live" ++ "/" ++ t,
           method := "POST", contentType := "application/sdp",
           body := message.sdp }] := by
  have hd : message.type = some "whip" ∨ message.type = some "whep" := by
    obtain h | h := ht
    · exact Or.inl (h ▸ hty)
    · exact Or.inr (h ▸ hty)
  have hstep : st.handleMessage (some message) clientUUID httpResult
      = st.handleSignaling message clientUUID httpResult := by
    simp [SignalingBridge.handleMessage, hd]
  rw [hstep, handleSignaling_call]
  obtain h | h := ht
  all_goals subst h
  all_goals simp [hty]

/-- Witness for C7 at a concrete WHEP request with an empty streamPath
and a network error. -/
theorem C7_witness :
    (stReady.handleMessage
        (some { type := some "whep", streamPath := some "", sdp := some "v=0 offer",
                requestId := some "r3" })
        "peer-3" (HttpResult.networkError "connection refused")).2.1
      = [{ url := stReady.mediaServerUrl ++ "/"
             ++ jsOr (some "") "live" ++ "/" ++ "whep",
           method := "POST", contentType := "application/sdp",
           body := some "v=0 offer" }] :=
  C7_request_url_and_body stReady
    { type := some "whep", streamPath := some "", sdp := some "v=0 offer",
      requestId := some "r3" }
    "peer-3" "whep" (HttpResult.networkError "connection refused") rfl (Or.inr rfl)
